import Mathlib

/-!
Shallow embedding of the "Python Debugging Game" application (src/app.py).

The application is one Streamlit script.  Its behaviour relevant to the
specification lives in four places:

* configuration constants (`SUCCESS_INDICATOR`, `EXECUTION_TIMEOUT`);
* `generate_broken_code(difficulty)`: calls the external completion service,
  strips markdown fences from the response, and returns the code, or `None`
  when the service call raises;
* `run_code_safely(code)`: runs the code text in a fresh subprocess
  (`subprocess.run([sys.executable, "-c", code], timeout=EXECUTION_TIMEOUT)`)
  and returns `(returncode, stdout, stderr)`, mapping the exceptional cases
  (missing interpreter, timeout, any other exception) to `(-1, "", message)`;
* the Start Round / Submit Code button handlers, which form the round state
  machine over `st.session_state` (`game_active`, `start_time`,
  `user_code_string`, `feedback`).

Pure functions below are direct translations; the subprocess boundary and the
external completion call are modelled as explicit inputs (an interpreter
function, a completion response), with every branch of the Python code kept.
Timestamps (`time.time()`) are modelled as rationals.
-/

namespace Bugmaster

/-! ### String primitives

`src/app.py` uses Python's `str.startswith`, `str.endswith`, slicing,
`str.strip()` and the substring test `in`.  They are modelled on the
character lists underlying `String`. -/

/-- Python's `str.isspace`, the set an argumentless `str.strip()` removes:
a character is whitespace when it has bidirectional class WS, B or S or
Unicode category Zs.  Concretely: 0x09-0x0D (tab, newline, vertical tab,
form feed, carriage return), space, 0x1C-0x1F (the separator controls),
0x85 (NEL), 0xA0 (NBSP), 0x1680, 0x2000-0x200A, 0x2028 (line separator),
0x2029 (paragraph separator), 0x202F, 0x205F and 0x3000. -/
def pyIsSpace (c : Char) : Bool :=
  (0x09 ≤ c.toNat && c.toNat ≤ 0x0d) || c.toNat = 0x20 ||
  (0x1c ≤ c.toNat && c.toNat ≤ 0x1f) || c.toNat = 0x85 || c.toNat = 0xa0 ||
  c.toNat = 0x1680 || (0x2000 ≤ c.toNat && c.toNat ≤ 0x200a) ||
  c.toNat = 0x2028 || c.toNat = 0x2029 || c.toNat = 0x202f ||
  c.toNat = 0x205f || c.toNat = 0x3000

/-- Python `s.strip()` on the underlying character list: remove leading and
trailing whitespace. -/
def pyStripList (l : List Char) : List Char :=
  ((l.dropWhile pyIsSpace).reverse.dropWhile pyIsSpace).reverse

/-- Python `s.strip()`. -/
def pyStrip (s : String) : String :=
  ⟨pyStripList s.data⟩

/-- Python `s.startswith(p)`. -/
def strStartsWith (s p : String) : Bool :=
  p.data.isPrefixOf s.data

/-- Python `s.endswith(p)`. -/
def strEndsWith (s p : String) : Bool :=
  p.data.reverse.isPrefixOf s.data.reverse

/-- Python `s[n:]`. -/
def strDrop (s : String) (n : Nat) : String :=
  ⟨s.data.drop n⟩

/-- Python `s[:-n]` (for `n ≤ len(s)`). -/
def strDropRight (s : String) (n : Nat) : String :=
  ⟨s.data.take (s.data.length - n)⟩

/-- Python's substring test `needle in haystack`, as a Boolean scan over the
character list. -/
def listContainsSub : List Char → List Char → Bool
  | needle, [] => needle.isEmpty
  | needle, c :: rest => needle.isPrefixOf (c :: rest) || listContainsSub needle rest

/-- Python `needle in haystack` on strings. -/
def strContains (haystack needle : String) : Bool :=
  listContainsSub needle.data haystack.data

/-! ### Configuration (src/app.py, lines 11-13) -/

def MODEL_NAME : String := "llama3-8b-8192"

/-- String the AI-generated code should print on success. -/
def SUCCESS_INDICATOR : String := "DEBUGGING_SUCCESSFUL"

/-- Wall-clock limit for one execution, in seconds. -/
def EXECUTION_TIMEOUT : Nat := 10

/-! ### generate_broken_code (src/app.py, lines 29-74) -/

/-- A failure of the external completion call (`client.chat.completions.create`).
The Groq client raises these as exceptions; the two kinds the specification
names are a service failure and an authentication failure. -/
inductive GenFailure where
  | serviceError (msg : String)
  | authError (msg : String)
deriving DecidableEq, Repr

/-- The markdown-fence cleanup applied to the raw completion
(src/app.py, lines 65-69):

    if code.startswith("```python"):
        code = code[len("```python"):].strip()
    if code.endswith("```"):
        code = code[:-len("```")].strip()
-/
def stripFences (code : String) : String :=
  let code := if strStartsWith code "```python" then pyStrip (strDrop code 9) else code
  let code := if strEndsWith code "```" then pyStrip (strDropRight code 3) else code
  code

/-- Model of `generate_broken_code` after the completion call resolved: on a successful
response the fence-stripped text is returned; the `except Exception` handler
catches every failure of the call, surfaces an error message in the UI, and
returns `None` (src/app.py, lines 49-74). -/
def generate_broken_code (resp : Except GenFailure String) : Option String :=
  match resp with
  | Except.ok code => some (stripFences code)
  | Except.error _ => none

/-- Challenge extraction for one round, in the shape of the specification's
`split` contract: the full completion (after markdown-fence cleanup) becomes
the visible code, and this variant recognizes no hidden-test marker, so the
hidden test is always empty (src/app.py, lines 64-70 and 141-149). -/
def split (raw : String) : String × String :=
  (stripFences raw, "")

/-! ### run_code_safely (src/app.py, lines 76-98) -/

/-- Result of `subprocess.run`: `(returncode, stdout, stderr)`. -/
structure RunResult where
  returncode : Int
  stdout : String
  stderr : String
deriving DecidableEq, Repr

/-- How the `subprocess.run` call in `run_code_safely` can resolve: normal
completion of the child process, `FileNotFoundError`,
`subprocess.TimeoutExpired`, or any other exception. -/
inductive RunOutcome where
  | completed (returncode : Int) (stdout stderr : String)
  | interpreterMissing
  | timedOut
  | unexpectedFailure (msg : String)
deriving DecidableEq, Repr

/-- Function `run_code_safely` (src/app.py, lines 76-98): the normal path returns the
subprocess triple; each exception handler returns `(-1, "", message)` instead
of propagating, so the call always returns. -/
def run_code_safely : RunOutcome → RunResult
  | RunOutcome.completed rc out err => ⟨rc, out, err⟩
  | RunOutcome.interpreterMissing => ⟨-1, "", "Error: Python interpreter not found."⟩
  | RunOutcome.timedOut =>
      ⟨-1, "", "Error: Code execution timed out after " ++ toString EXECUTION_TIMEOUT ++ " seconds."⟩
  | RunOutcome.unexpectedFailure msg =>
      ⟨-1, "", "An unexpected error occurred during execution: " ++ msg⟩

/-! ### The subprocess boundary (src/app.py, line 81-86)

`run_code_safely` executes `subprocess.run([sys.executable, "-c", code])`:
a fresh Python interpreter is started whose only input from the session is the
code text, whose module namespace starts empty, and whose final namespace dies
with the process.  The interpreter is modelled as a function from the `-c`
source text and the initial module namespace to a run result and a final
namespace; the call site always passes the empty namespace and discards the
final one. -/

/-- A module namespace: name/value bindings of the child interpreter. -/
def PyNamespace : Type := List (String × String)

/-- One `subprocess.run([sys.executable, "-c", code], ...)` call: spawn a
fresh interpreter (empty initial namespace), keep only the run result. -/
def spawnRun (interp : String → PyNamespace → RunResult × PyNamespace)
    (code : String) : RunResult :=
  (interp code ([] : PyNamespace)).1

/-- The run results observed by a sequence of submissions, each executed by
`run_code_safely` through its own fresh subprocess. -/
def sessionRuns (interp : String → PyNamespace → RunResult × PyNamespace)
    (codes : List String) : List RunResult :=
  codes.map (spawnRun interp)

/-! ### Session state and the button handlers (src/app.py, lines 110-196) -/

/-- The `st.session_state` fields the game uses (src/app.py, lines 110-119). -/
structure SessionState where
  game_active : Bool
  start_time : Option ℚ
  user_code_string : String
  feedback : String
deriving DecidableEq, Repr

/-- Initial session state (src/app.py, lines 110-119). -/
def initialState : SessionState :=
  { game_active := false, start_time := none, user_code_string := "", feedback := "" }

/-- The Submit Code button is rendered with `disabled = not game_active`
(src/app.py, line 161). -/
def submitEnabled (s : SessionState) : Bool :=
  s.game_active

/-- The success test of the Submit Code handler (src/app.py, line 173):
`return_code == 0 and SUCCESS_INDICATOR in stdout`. -/
def passCond (r : RunResult) : Bool :=
  r.returncode == 0 && strContains r.stdout SUCCESS_INDICATOR

/-- Feedback shown when the code exits nonzero (src/app.py, line 188). -/
def executionFailedFeedback (stderr : String) : String :=
  "Execution failed:\n\n" ++ stderr

/-- Feedback shown when the code exits 0 without printing the success
indicator (src/app.py, line 192). -/
def indicatorMissingFeedback (stdout stderr : String) : String :=
  "Code ran without crashing, but the success condition (\x27" ++ SUCCESS_INDICATOR ++
    "\x27) was not met.\n\nStandard Output:\n" ++ stdout ++ "\n\nStandard Error:\n" ++
    (if stderr = "" then "None" else stderr)

/-- Which branch of the Submit Code handler ran, and what it displayed:
the success branch reports the solve duration; `passedTimerUnset` marks the
success branch entered with `start_time = None`, where the source raises an
uncaught `TypeError` computing `end_time - None` (unreachable while the
handler's enabling invariant `game_active → start_time set` holds); the two
failure branches are the nonzero-exit branch and the
indicator-missing branch. -/
inductive SubmitOutcome where
  | passed (duration : ℚ)
  | passedTimerUnset
  | failedNonzeroExit
  | failedIndicatorMissing
deriving DecidableEq, Repr

/-- Did the submission take the success branch (balloons / success message)? -/
def isPassed : SubmitOutcome → Bool
  | SubmitOutcome.passed _ => true
  | SubmitOutcome.passedTimerUnset => true
  | SubmitOutcome.failedNonzeroExit => false
  | SubmitOutcome.failedIndicatorMissing => false

/-- The Submit Code handler (src/app.py, lines 162-196), after
`run_code_safely` returned `r`, at wall-clock time `t1`:

* `return_code == 0 and SUCCESS_INDICATOR in stdout`: deactivate the game,
  report `duration = end_time - start_time`, clear feedback, code and timer;
* `elif return_code != 0`: keep the state, set feedback to the
  execution-failed message with the captured stderr;
* `else`: keep the state, set feedback to the indicator-missing message. -/
def submitCode (s : SessionState) (r : RunResult) (t1 : ℚ) : SessionState × SubmitOutcome :=
  if passCond r then
    match s.start_time with
    | some t0 =>
        ({ game_active := false, start_time := none, user_code_string := "", feedback := "" },
         SubmitOutcome.passed (t1 - t0))
    | none =>
        ({ s with game_active := false }, SubmitOutcome.passedTimerUnset)
  else if r.returncode != 0 then
    ({ s with feedback := executionFailedFeedback r.stderr }, SubmitOutcome.failedNonzeroExit)
  else
    ({ s with feedback := indicatorMissingFeedback r.stdout r.stderr },
     SubmitOutcome.failedIndicatorMissing)

/-- The Start Round handler (src/app.py, lines 133-156): it first sets
`game_active = True`, clears `user_code_string` and `start_time`, then calls
`generate_broken_code`.  The branch condition is Python's truthiness test
`if broken_code:` (line 143), so both `None` and an empty generated string
are falsy and deactivate the game again; with a nonempty generated code it
stores the code, records `start_time = time.time()` **now** (after
generation, when the challenge is presented) and announces the round.
`broken` is `generate_broken_code`'s return value and `t` the `time.time()`
reading taken at line 146. -/
def startRound (_s : SessionState) (difficulty : String) (broken : Option String) (t : ℚ) :
    SessionState :=
  match broken with
  | some code =>
      if code = "" then
        { game_active := false, start_time := none, user_code_string := "",
          feedback := "Failed to generate code. Please try again." }
      else
        { game_active := true, start_time := some t, user_code_string := code,
          feedback := "Round started! Fix the code below (" ++ difficulty ++ " difficulty)." }
  | none =>
      { game_active := false, start_time := none, user_code_string := "",
        feedback := "Failed to generate code. Please try again." }

/-- Thread a list of submissions (run result and submission time) through the
Submit Code handler, keeping the session state. -/
def submitMany (s : SessionState) : List (RunResult × ℚ) → SessionState
  | [] => s
  | (r, t) :: rest => submitMany (submitCode s r t).1 rest

/-! ### Concrete fixtures used by counterexamples and witnesses -/

/-- Subprocess result of `python -c 'def f(:'`: the parse fails before
execution, the child exits with status 1 and Python's `SyntaxError` message on
stderr. -/
def synErrRun : RunResult :=
  ⟨1, "", "  File \"<string>\", line 1\n    def f(:\n          ^\nSyntaxError: invalid syntax\n"⟩

/-- Subprocess result of `python -c '1/0'`: the child exits with status 1 and a
`ZeroDivisionError` traceback on stderr. -/
def zeroDivRun : RunResult :=
  ⟨1, "",
   "Traceback (most recent call last):\n  File \"<string>\", line 1, in <module>\nZeroDivisionError: division by zero\n"⟩

/-- Subprocess result of `python -c 'print("DEBUGGING_SUCCESSFUL")'`: exit
status 0 with the success indicator on stdout. -/
def markerRun : RunResult := ⟨0, "DEBUGGING_SUCCESSFUL\n", ""⟩

/-- An active round whose timer started at time 0. -/
def demoActive : SessionState :=
  { game_active := true, start_time := some 0, user_code_string := "def f(:", feedback := "" }

/-- An active round (timer at 0) whose editor holds a submission that only
prints the success indicator; there is no hidden test to append to it. -/
def activeAtZero : SessionState :=
  { game_active := true, start_time := some 0,
    user_code_string := "print(\"DEBUGGING_SUCCESSFUL\")", feedback := "" }

/-! ### Helper lemmas -/

/-- The Boolean substring scan agrees with the `List.IsInfix` relation. -/
theorem listContainsSub_iff (needle l : List Char) :
    listContainsSub needle l = true ↔ needle <:+: l := by
  induction l with
  | nil => simp [listContainsSub]
  | cons c rest ih =>
      simp [listContainsSub, List.isPrefixOf_iff_prefix, ih, List.infix_cons_iff]

/-- Agreement of `strContains` with `List.IsInfix` on the character lists. -/
theorem strContains_iff (haystack needle : String) :
    strContains haystack needle = true ↔ needle.data <:+: haystack.data :=
  listContainsSub_iff needle.data haystack.data

/-- The Submit Code handler takes its success branch exactly on `passCond`. -/
theorem isPassed_submitCode (s : SessionState) (r : RunResult) (t1 : ℚ) :
    isPassed (submitCode s r t1).2 = passCond r := by
  cases hp : passCond r with
  | true =>
      cases hst : s.start_time <;> simp [submitCode, hp, hst, isPassed]
  | false =>
      cases hn : (r.returncode != 0) <;> simp [submitCode, hp, hn, isPassed]

/-- A non-passing submission only rewrites `feedback`. -/
theorem submitCode_not_passed_state (s : SessionState) (r : RunResult) (t1 : ℚ)
    (hp : passCond r = false) :
    (submitCode s r t1).1.game_active = s.game_active
    ∧ (submitCode s r t1).1.start_time = s.start_time
    ∧ (submitCode s r t1).1.user_code_string = s.user_code_string := by
  cases hn : (r.returncode != 0) <;> simp [submitCode, hp, hn]

/-- A run of non-passing submissions leaves `start_time` unchanged. -/
theorem submitMany_start_time (attempts : List (RunResult × ℚ)) (s : SessionState)
    (h : ∀ a ∈ attempts, passCond a.1 = false) :
    (submitMany s attempts).start_time = s.start_time := by
  induction attempts generalizing s with
  | nil => rfl
  | cons a rest ih =>
      obtain ⟨r, t⟩ := a
      have ha : passCond r = false := h (r, t) (List.mem_cons_self _ _)
      have hr : ∀ b ∈ rest, passCond b.1 = false := fun b hb => h b (List.mem_cons_of_mem _ hb)
      have hstep := (submitCode_not_passed_state s r t ha).2.1
      calc (submitMany (submitCode s r t).1 rest).start_time
          = (submitCode s r t).1.start_time := ih _ hr
        _ = s.start_time := hstep

/-! ### Claim theorems -/

/-- C1: a submission is reported Passed exactly when the subprocess exits 0
and the literal `DEBUGGING_SUCCESSFUL` marker occurs in the captured stdout;
and an exit-0 run without the marker is reported through the Failed
(indicator-missing) branch, whose feedback notes that the success condition
was not met. -/
theorem passed_iff_exit_zero_and_marker (s : SessionState) (r : RunResult) (t1 : ℚ) :
    (isPassed (submitCode s r t1).2 = true ↔
      (r.returncode = 0 ∧ SUCCESS_INDICATOR.data <:+: r.stdout.data))
    ∧ (r.returncode = 0 → ¬ SUCCESS_INDICATOR.data <:+: r.stdout.data →
        (submitCode s r t1).2 = SubmitOutcome.failedIndicatorMissing
        ∧ (submitCode s r t1).1.feedback = indicatorMissingFeedback r.stdout r.stderr) := by
  constructor
  · rw [isPassed_submitCode]
    simp [passCond, Bool.and_eq_true, beq_iff_eq, strContains_iff]
  · intro h0 hni
    have hc : strContains r.stdout SUCCESS_INDICATOR = false := by
      cases hcb : strContains r.stdout SUCCESS_INDICATOR with
      | false => rfl
      | true => exact absurd ((strContains_iff _ _).mp hcb) hni
    have hp : passCond r = false := by simp [passCond, hc]
    have hn : (r.returncode != 0) = false := by simp [bne, h0]
    simp [submitCode, hp, hn]

/-- C1 witness: a run exiting 0 with stdout `"hello"` (no marker) takes the
indicator-missing branch with its diagnostic feedback. -/
theorem passed_iff_exit_zero_and_marker_witness :
    (submitCode initialState ⟨0, "hello", ""⟩ 2).2 = SubmitOutcome.failedIndicatorMissing
    ∧ (submitCode initialState ⟨0, "hello", ""⟩ 2).1.feedback =
        indicatorMissingFeedback "hello" "" :=
  (passed_iff_exit_zero_and_marker initialState ⟨0, "hello", ""⟩ 2).2 rfl (by decide)

/-- C2 counterexample: with no hidden test at all (this variant never appends
one, i.e. the hidden test is empty), the submission
`print("DEBUGGING_SUCCESSFUL")` — subprocess result exit 0, stdout
`"DEBUGGING_SUCCESSFUL\n"` — is reported Passed, contradicting the claim that
an empty hidden test yields `MissingTestEntryPoint` and never `Passed` (no
such verdict exists anywhere in the code). -/
theorem empty_hidden_test_can_pass : isPassed (submitCode activeAtZero markerRun 1).2 = true :=
  rfl

/-- C2 amended: this variant has no hidden-test mechanism and no
`MissingTestEntryPoint` verdict; evaluation with the (always) empty hidden
test is decided purely by the submitted code's own run: it passes exactly when
the marker string appears in the captured stdout of an exit-0 run. -/
theorem no_hidden_test_marker_decides (s : SessionState) (out err : String) (t1 : ℚ) :
    isPassed (submitCode s ⟨0, out, err⟩ t1).2 = strContains out SUCCESS_INDICATOR := by
  rw [isPassed_submitCode]
  simp [passCond]

/-- C3 counterexample: the malformed submission `def f(:` (subprocess exits 1
with a `SyntaxError` message) and a runtime-error submission (`1/0`, exit 1
with a `ZeroDivisionError` traceback) are classified through the same single
nonzero-exit failure branch with the same feedback shape: the code has no
separate `SyntaxOrParseError` category ranked above `RuntimeError`. -/
theorem syntax_error_not_distinguished :
    (submitCode demoActive synErrRun 1).2 = SubmitOutcome.failedNonzeroExit
    ∧ (submitCode demoActive zeroDivRun 1).2 = SubmitOutcome.failedNonzeroExit
    ∧ (submitCode demoActive synErrRun 1).1.feedback = executionFailedFeedback synErrRun.stderr
    ∧ (submitCode demoActive zeroDivRun 1).1.feedback =
        executionFailedFeedback zeroDivRun.stderr :=
  ⟨rfl, rfl, rfl, rfl⟩

/-- C3 amended: every nonzero-exit run — malformed candidates included — is
classified through the one execution-failed branch, never Passed, with
feedback `"Execution failed:"` followed by the captured stderr (which for a
malformed candidate carries Python's `SyntaxError` text). -/
theorem nonzero_exit_single_failure_branch (s : SessionState) (r : RunResult) (t1 : ℚ)
    (h : r.returncode ≠ 0) :
    (submitCode s r t1).2 = SubmitOutcome.failedNonzeroExit
    ∧ isPassed (submitCode s r t1).2 = false
    ∧ (submitCode s r t1).1.feedback = executionFailedFeedback r.stderr
    ∧ (submitCode s r t1).1.game_active = s.game_active := by
  have h1 : (r.returncode == 0) = false := beq_eq_false_iff_ne.mpr h
  have hp : passCond r = false := by simp [passCond, h1]
  have hn : (r.returncode != 0) = true := by simp [bne, h1]
  simp [submitCode, hp, hn, isPassed]

/-- C3 amended witness: a run exiting 2 with stderr `"boom"` lands in the
execution-failed branch. -/
theorem nonzero_exit_single_failure_branch_witness :
    (submitCode demoActive ⟨2, "out", "boom"⟩ 1).2 = SubmitOutcome.failedNonzeroExit
    ∧ isPassed (submitCode demoActive ⟨2, "out", "boom"⟩ 1).2 = false
    ∧ (submitCode demoActive ⟨2, "out", "boom"⟩ 1).1.feedback = executionFailedFeedback "boom"
    ∧ (submitCode demoActive ⟨2, "out", "boom"⟩ 1).1.game_active = demoActive.game_active :=
  nonzero_exit_single_failure_branch demoActive ⟨2, "out", "boom"⟩ 1 (by decide)

/-- C4: a run that exceeds the 10-second limit still returns a result (the
`TimeoutExpired` handler maps it to `(-1, "", timeout message)` instead of
propagating), the configured limit is 10 seconds, and the submission is
reported through the failure branch — not Passed — with the timeout diagnostic
as its feedback. -/
theorem timeout_returns_and_is_reported (s : SessionState) (t1 : ℚ) :
    run_code_safely RunOutcome.timedOut =
      ⟨-1, "", "Error: Code execution timed out after 10 seconds."⟩
    ∧ EXECUTION_TIMEOUT = 10
    ∧ (submitCode s (run_code_safely RunOutcome.timedOut) t1).2 =
        SubmitOutcome.failedNonzeroExit
    ∧ isPassed (submitCode s (run_code_safely RunOutcome.timedOut) t1).2 = false
    ∧ (submitCode s (run_code_safely RunOutcome.timedOut) t1).1.feedback =
        "Execution failed:\n\nError: Code execution timed out after 10 seconds." :=
  ⟨rfl, rfl, rfl, rfl, rfl⟩

/-- C5: each submission is executed by spawning a fresh interpreter on the
code text alone (empty initial module namespace, final namespace discarded
with the process); hence in any two sequential evaluations the second runs
from the empty namespace — seeing no binding made by the first — and its
result is independent of what was submitted first. -/
theorem sequential_evaluations_isolated
    (interp : String → PyNamespace → RunResult × PyNamespace) (c1 c1' c2 : String) :
    sessionRuns interp [c1, c2] =
      [(interp c1 ([] : PyNamespace)).1, (interp c2 ([] : PyNamespace)).1]
    ∧ (sessionRuns interp [c1, c2]).drop 1 = (sessionRuns interp [c1', c2]).drop 1 :=
  ⟨rfl, rfl⟩

/-- C8 counterexample: two different failures of the completion call — a
service error and an authentication error — produce the identical caller-visible
result `none`: the Generator catches the exception and returns `None`, so the
error does not propagate to the caller unmodified (nor at all). -/
theorem generator_swallows_failures :
    generate_broken_code (Except.error (GenFailure.serviceError "network unreachable")) =
      generate_broken_code (Except.error (GenFailure.authError "invalid credential"))
    ∧ generate_broken_code (Except.error (GenFailure.serviceError "network unreachable")) =
        none :=
  ⟨rfl, rfl⟩

/-- C8 amended: on every failure of the external completion call the Generator
catches the exception, surfaces an error message, and returns `None` to its
caller; it performs no retry (structurally, it consumes exactly one completion
response). -/
theorem generator_returns_none_on_failure (e : GenFailure) :
    generate_broken_code (Except.error e) = none :=
  rfl

/-- C6: while a round is active (with its timer set), a non-passing submission
leaves the round active — the Submit button stays enabled, the editable code
and the timer are untouched, so the player may resubmit — whereas a passing
submission deactivates the round and resets its editing state (code cleared,
timer cleared, feedback cleared). -/
theorem submit_keeps_round_active_unless_passed (s : SessionState) (r : RunResult)
    (t1 t0 : ℚ) (hact : s.game_active = true) (hst : s.start_time = some t0) :
    (passCond r = false →
      (submitCode s r t1).1.game_active = true
      ∧ submitEnabled (submitCode s r t1).1 = true
      ∧ (submitCode s r t1).1.user_code_string = s.user_code_string
      ∧ (submitCode s r t1).1.start_time = some t0)
    ∧ (passCond r = true →
      (submitCode s r t1).1.game_active = false
      ∧ (submitCode s r t1).1.user_code_string = ""
      ∧ (submitCode s r t1).1.start_time = none
      ∧ (submitCode s r t1).1.feedback = "") := by
  constructor
  · intro hp
    have hkeep := submitCode_not_passed_state s r t1 hp
    refine ⟨?_, ?_, hkeep.2.2, ?_⟩
    · rw [hkeep.1, hact]
    · simp [submitEnabled, hkeep.1, hact]
    · rw [hkeep.2.1, hst]
  · intro hp
    simp [submitCode, hp, hst]

/-- C6 witness: from an active round, the failing run `zeroDivRun` keeps the
round active with code and timer intact. -/
theorem submit_keeps_round_active_unless_passed_witness :
    (passCond zeroDivRun = false →
      (submitCode activeAtZero zeroDivRun 3).1.game_active = true
      ∧ submitEnabled (submitCode activeAtZero zeroDivRun 3).1 = true
      ∧ (submitCode activeAtZero zeroDivRun 3).1.user_code_string =
          activeAtZero.user_code_string
      ∧ (submitCode activeAtZero zeroDivRun 3).1.start_time = some 0)
    ∧ (passCond zeroDivRun = true →
      (submitCode activeAtZero zeroDivRun 3).1.game_active = false
      ∧ (submitCode activeAtZero zeroDivRun 3).1.user_code_string = ""
      ∧ (submitCode activeAtZero zeroDivRun 3).1.start_time = none
      ∧ (submitCode activeAtZero zeroDivRun 3).1.feedback = "") :=
  submit_keeps_round_active_unless_passed activeAtZero zeroDivRun 3 0 rfl rfl

/-- C7: for a round actually started at time `t0` — a nonempty generated code
passed the `if broken_code:` truthiness test, and the Start Round handler
records `start_time = time.time()` right when that code is loaded, not at
object creation and not at first keystroke — any number of failed submissions
later, a passing submission at time `t1 > t0` reports elapsed time exactly
`t1 - t0`, which is positive. -/
theorem elapsed_measured_from_round_start (s0 : SessionState) (d code : String) (t0 : ℚ)
    (attempts : List (RunResult × ℚ)) (r : RunResult) (t1 : ℚ)
    (hcode : code ≠ "")
    (hatt : ∀ a ∈ attempts, passCond a.1 = false)
    (hpass : passCond r = true) (hlt : t0 < t1) :
    (submitCode (submitMany (startRound s0 d (some code) t0) attempts) r t1).2 =
      SubmitOutcome.passed (t1 - t0)
    ∧ 0 < t1 - t0 := by
  have hst : (submitMany (startRound s0 d (some code) t0) attempts).start_time = some t0 := by
    rw [submitMany_start_time attempts _ hatt]
    simp [startRound, hcode]
  constructor
  · simp [submitCode, hpass, hst]
  · exact sub_pos.mpr hlt

/-- C7 witness: round started at time 2, one failed attempt at time 3, passing
submission at time 7 reports elapsed `7 - 2`. -/
theorem elapsed_measured_from_round_start_witness :
    (submitCode (submitMany (startRound initialState "Easy" (some "x = 1") 2)
        [(⟨1, "", "boom"⟩, 3)]) markerRun 7).2 = SubmitOutcome.passed (7 - 2)
    ∧ (0 : ℚ) < 7 - 2 :=
  elapsed_measured_from_round_start initialState "Easy" "x = 1" 2 [(⟨1, "", "boom"⟩, 3)]
    markerRun 7 (by decide) (by decide) (by decide) (by norm_num)

/-! ### Delimiter lemmas -/

/-- A list that `dropWhile` leaves intact (nonempty, non-matching head) is
also left intact when something is appended to it. -/
theorem dropWhile_keep_append (p : Char → Bool) (l₁ l₂ : List Char)
    (h : l₁.dropWhile p = l₁) (hne : l₁ ≠ []) :
    (l₁ ++ l₂).dropWhile p = l₁ ++ l₂ := by
  cases l₁ with
  | nil => exact absurd rfl hne
  | cons a as =>
      cases hpa : p a with
      | true =>
          exfalso
          rw [List.dropWhile_cons_of_pos hpa] at h
          have hlen : (as.dropWhile p).length ≤ as.length := (List.dropWhile_sublist p).length_le
          rw [h] at hlen
          simp at hlen
      | false =>
          rw [List.cons_append, List.dropWhile_cons_of_neg (by simp [hpa])]

/-- C9: on input containing none of the delimiters this variant recognizes
(the markdown fences are its only section markers; it has no hidden-test
marker at all), the challenge extraction returns the entire input as the
visible code and an empty hidden test.  The operation is a total function, so
it never raises. -/
theorem split_without_markers_is_identity (t : String)
    (h1 : strStartsWith t "```python" = false) (h2 : strEndsWith t "```" = false) :
    split t = (t, "") := by
  simp [split, stripFences, h1, h2]

/-- C9 witness: `split` on a marker-free text returns it whole with an empty
hidden test. -/
theorem split_without_markers_is_identity_witness :
    split "print(42)" = ("print(42)", "") :=
  split_without_markers_is_identity "print(42)" (by decide) (by decide)

/-- C10: the generator's fence cleanup strips a leading ```` ```python ````
fence and a trailing ```` ``` ```` fence, stripping surrounding whitespace,
so a completion wrapped in fences yields exactly the enclosed code (stated for
code with no leading or trailing whitespace of its own); and a completion
without such fences is used verbatim. -/
theorem markdown_fence_handling :
    (∀ body : String, body ≠ "" →
      body.data.dropWhile pyIsSpace = body.data →
      body.data.reverse.dropWhile pyIsSpace = body.data.reverse →
      stripFences ("```python\n" ++ body ++ "\n```") = body)
    ∧ (∀ t : String, strStartsWith t "```python" = false → strEndsWith t "```" = false →
        stripFences t = t) := by
  constructor
  · intro body hne h1 h2
    have hB : body.data ≠ [] := by
      intro hnil
      apply hne
      cases body with
      | mk d =>
          subst hnil
          rfl
    have hdata : ("```python\n" ++ body ++ "\n```").data
        = "```python".data ++ ('\n' :: (body.data ++ ['\n', '`', '`', '`'])) := by
      rw [String.data_append, String.data_append]
      rw [show "```python\n".data = "```python".data ++ ['\n'] from rfl,
          show "\n```".data = ['\n', '`', '`', '`'] from rfl]
      simp [List.append_assoc]
    have hsw : strStartsWith ("```python\n" ++ body ++ "\n```") "```python" = true := by
      unfold strStartsWith
      rw [hdata]
      exact ( List.isPrefixOf_iff_prefix).mpr ⟨_, rfl⟩
    have hstep1 : pyStrip (strDrop ("```python\n" ++ body ++ "\n```") 9)
        = ⟨body.data ++ ['\n', '`', '`', '`']⟩ := by
      unfold strDrop
      rw [hdata, show (9 : Nat) = ("```python".data).length from rfl, List.drop_left]
      suffices hl : pyStripList ('\n' :: (body.data ++ ['\n', '`', '`', '`']))
          = body.data ++ ['\n', '`', '`', '`'] from congrArg String.mk hl
      unfold pyStripList
      rw [List.dropWhile_cons_of_pos (by decide : pyIsSpace '\n' = true)]
      rw [dropWhile_keep_append pyIsSpace body.data _ h1 hB]
      rw [List.reverse_append,
          show (['\n', '`', '`', '`'] : List Char).reverse = ['`', '`', '`', '\n'] from rfl]
      rw [show (['`', '`', '`', '\n'] : List Char) ++ body.data.reverse
            = '`' :: (['`', '`', '\n'] ++ body.data.reverse) from rfl]
      rw [List.dropWhile_cons_of_neg (by decide)]
      rw [show ('`' : Char) :: (['`', '`', '\n'] ++ body.data.reverse)
            = (['`', '`', '`', '\n'] : List Char) ++ body.data.reverse from rfl]
      rw [List.reverse_append, List.reverse_reverse]
      rfl
    have hew : strEndsWith (⟨body.data ++ ['\n', '`', '`', '`']⟩ : String) "```" = true := by
      unfold strEndsWith
      refine ( List.isPrefixOf_iff_prefix).mpr ⟨'\n' :: body.data.reverse, ?_⟩
      show (['`', '`', '`'] : List Char) ++ ('\n' :: body.data.reverse)
          = (body.data ++ ['\n', '`', '`', '`']).reverse
      rw [List.reverse_append]
      rfl
    have hdr : strDropRight (⟨body.data ++ ['\n', '`', '`', '`']⟩ : String) 3
        = ⟨body.data ++ ['\n']⟩ := by
      unfold strDropRight
      suffices hl : (body.data ++ ['\n', '`', '`', '`']).take
          ((body.data ++ ['\n', '`', '`', '`']).length - 3) = body.data ++ ['\n'] from
        congrArg String.mk hl
      have hshape : body.data ++ ['\n', '`', '`', '`']
          = (body.data ++ ['\n']) ++ ['`', '`', '`'] := by
        simp
      rw [hshape]
      have hidx : ((body.data ++ ['\n']) ++ ['`', '`', '`']).length - 3
          = (body.data ++ ['\n']).length := by
        simp
      rw [hidx, List.take_left]
    have hstep2 : pyStrip (⟨body.data ++ ['\n']⟩ : String) = body := by
      suffices hl : pyStripList (body.data ++ ['\n']) = body.data from congrArg String.mk hl
      unfold pyStripList
      rw [dropWhile_keep_append pyIsSpace body.data _ h1 hB]
      rw [List.reverse_append,
          show (['\n'] : List Char).reverse = ['\n'] from rfl, List.singleton_append]
      rw [List.dropWhile_cons_of_pos (by decide : pyIsSpace '\n' = true)]
      rw [h2, List.reverse_reverse]
    show stripFences ("```python\n" ++ body ++ "\n```") = body
    unfold stripFences
    rw [hsw]
    simp only [if_true]
    rw [hstep1, hew]
    simp only [if_true]
    rw [hdr, hstep2]
  · intro t h1 h2
    simp [stripFences, h1, h2]

/-- C10 witness: the fenced completion around `x = 1` yields `x = 1`, and the
fence-free completion `print(42)` is kept verbatim. -/
theorem markdown_fence_handling_witness :
    stripFences ("```python\n" ++ "x = 1" ++ "\n```") = "x = 1"
    ∧ stripFences "y = [2]" = "y = [2]" :=
  ⟨markdown_fence_handling.1 "x = 1" (by decide) (by decide) (by decide),
   markdown_fence_handling.2 "y = [2]" (by decide) (by decide)⟩

end Bugmaster
